import Mathlib

/-!
Shallow embedding of the talk2sql front-end client.

The repository is a React front end; the logic-bearing pieces embedded here
are translated directly from the source files:

* JavaScript string/number primitives (`trim`, `parseInt(., 10)`, the `||`
  default idiom) used throughout the pages;
* the dashboard orchestrator `handleRunQuery` and its helpers from the
  split-pane dashboard variant (src/unnamed/part_008) and the sidebar
  variant (src/unnamed/part_009);
* the operation metadata table from
  src/frontend/src/components/dashboard/OperationSelector.tsx;
* the auth-context construction from
  src/frontend/src/contexts/AuthContext.tsx;
* the onboarding page `handleComplete` / `handleSkip` and its
  localStorage reads from src/unnamed/part_006.

Browser storage is modelled as a total map `String → Option String`;
network exchanges are modelled by passing the response as an explicit
argument and collecting the issued requests in the result.
-/

namespace Talk2SQL

/-! ## JavaScript primitive models -/

/-- Characters treated as whitespace by JavaScript `String.prototype.trim`
and by `parseInt` when skipping leading space (ASCII whitespace plus
no-break space). -/
def isJsSpace (c : Char) : Bool :=
  c = ' ' || c = '\t' || c = '\n' || c = '\r' || c = '\x0b' || c = '\x0c' || c = '\u00A0'

/-- JavaScript `s.trim()`: strip leading and trailing whitespace. -/
def jsTrim (s : String) : String :=
  ⟨((s.data.dropWhile isJsSpace).reverse.dropWhile isJsSpace).reverse⟩

/-- Value of a list of decimal digit characters. -/
def digitsVal (ds : List Char) : Nat :=
  ds.foldl (fun acc c => acc * 10 + (c.toNat - 48)) 0

/-- JavaScript `parseInt(s, 10)`: skip leading whitespace, read an optional
sign, then the longest prefix of decimal digits; `none` models `NaN`
(no digits at all). -/
def jsParseInt (s : String) : Option Int :=
  let cs := s.data.dropWhile isJsSpace
  let signAndRest : Int × List Char :=
    match cs with
    | '-' :: r => (-1, r)
    | '+' :: r => (1, r)
    | r => (1, r)
  let ds := signAndRest.2.takeWhile (fun c => c.isDigit)
  if ds.isEmpty then none
  else some (signAndRest.1 * (digitsVal ds : Int))

/-- The JavaScript idiom `x || d` applied to a nullable string `x`:
`null`/`undefined` and the empty string are falsy and yield the default. -/
def jsOrS (v : Option String) (d : String) : String :=
  match v with
  | none => d
  | some s => if s = "" then d else s

/-! ## OperationSelector.tsx: the operation metadata table -/

/-- One entry of the `operations` array in OperationSelector.tsx
(the `icon` and `color` fields are presentational and omitted). -/
structure OperationInfo where
  value : String
  label : String
  description : String
deriving DecidableEq, Repr

/-- The `operations` array of OperationSelector.tsx. -/
def operations : List OperationInfo :=
  [ { value := "generate", label := "Generate SQL", description := "From English to SQL" },
    { value := "fix", label := "Fix SQL", description := "Debug and fix errors" },
    { value := "explain", label := "Explain SQL", description := "Understand your query" },
    { value := "optimize", label := "Optimize SQL", description := "Improve performance" },
    { value := "suggest", label := "AI Suggestions", description := "Get query suggestions" },
    { value := "join", label := "View Possible Joins", description := "Find table relations" } ]

/-- The closed set of known operation codes (spec section 3). -/
def opCodes : List String :=
  ["generate", "fix", "explain", "optimize", "suggest", "join"]

/-! ## Dashboard orchestrator (src/unnamed/part_008) -/

/-- One suggestion object `{sql, title}` as consumed from `/suggest-next`. -/
structure Suggestion where
  sql : String
  title : String
deriving DecidableEq, Repr

/-- The `output` state of the dashboard: `{ sql?, explanation?, suggestions? }`.
`none` in a field models an absent (undefined) field. -/
structure Output where
  sql : Option String
  explanation : Option String
  suggestions : Option (List Suggestion)
deriving DecidableEq, Repr

/-- The success-response body consumed by `handleRunQuery`
(`data.sql`, `data.explanation`, `data.queries`, `data.notes`,
each possibly absent). -/
structure RunData where
  sql : Option String
  explanation : Option String
  queries : Option (List Suggestion)
  notes : Option String
deriving DecidableEq, Repr

/-- Component state of the part_008 dashboard. -/
structure DashState where
  operation : String
  input : String
  isLoading : Bool
  output : Option Output
  error : String
  numSuggestionsInput : String
  numSuggestionsWasValidated : Bool
  databaseType : String
deriving DecidableEq, Repr

/-- `getValidatedSuggestions` (part_008 lines 56-60): parse the raw text and
clamp; 5 when the text is empty or not a number. The JS code computes
`parsed = parseInt(val, 10)` and returns 5 on `val === '' || isNaN(parsed)`;
matching on the parse result first is equivalent since `parseInt('')` is NaN. -/
def getValidatedSuggestions (val : String) : Int :=
  match jsParseInt val with
  | none => 5
  | some parsed => if val = "" then 5 else max 1 (min 10 parsed)

/-- Endpoint selection of part_008 `handleRunQuery` (lines 80-84): a default
of `/api/generate-sql` overridden by four `if` statements. -/
def endpointFor (operation : String) : String :=
  if operation = "fix" then "/api/fix-sql"
  else if operation = "explain" then "/api/explain-sql"
  else if operation = "optimize" then "/api/optimize-sql"
  else if operation = "suggest" then "/api/suggest-next"
  else "/api/generate-sql"

/-- The request payload built by part_008 `handleRunQuery` (lines 87-99).
`none` models a key that is absent from the JSON body. -/
structure RunPayload where
  db_key : String
  max_rows : Int
  database_type : String
  question : Option String
  sql : Option String
  max_suggestions : Option Int
deriving DecidableEq, Repr

/-- Payload construction of part_008 `handleRunQuery`: the base object, then
`question` for `generate` and `sql` otherwise, then `max_suggestions` only
for `suggest`. -/
def mkPayload (operation input databaseType : String) (finalSuggestions : Int) : RunPayload :=
  let base : RunPayload :=
    { db_key := "default", max_rows := 100, database_type := databaseType,
      question := none, sql := none, max_suggestions := none }
  let p1 := if operation = "generate" then { base with question := some input }
            else { base with sql := some input }
  if operation = "suggest" then { p1 with max_suggestions := some finalSuggestions } else p1

/-- Outcome of the fetch in `handleRunQuery`: a parsed success body, a
non-ok HTTP response whose error body carries optional `detail` / `message`
strings, or a thrown exception with its message. -/
inductive RunResponse where
  | ok (data : RunData)
  | httpError (detail : Option String) (message : Option String)
  | thrown (msg : String)
deriving DecidableEq, Repr

/-- A request issued to the remote API by the dashboard. -/
structure RunRequest where
  endpoint : String
  payload : RunPayload
deriving DecidableEq, Repr

/-- Message of the error thrown on a non-ok response (part_008 line 109):
`errorData.detail || errorData.message || 'Failed to process query'`. -/
def runErrMsg (detail message : Option String) : String :=
  jsOrS detail (jsOrS message "Failed to process query")

/-- The catch clause (part_008 line 127): `err.message || 'An unexpected
error occurred'`. -/
def runCatch (m : String) : String :=
  jsOrS (some m) "An unexpected error occurred"

/-- Per-operation normalization of the success body (part_008 lines 114-124):
`suggest` maps `queries`/`notes` into `suggestions`/`explanation`, every
other operation maps `sql`/`explanation`, absent fields defaulted by `||`. -/
def normalizeOutput (operation : String) (data : RunData) : Output :=
  if operation = "suggest" then
    { sql := none,
      explanation := some (jsOrS data.notes ""),
      suggestions := some (data.queries.getD []) }
  else
    { sql := some (jsOrS data.sql ""),
      explanation := some (jsOrS data.explanation ""),
      suggestions := none }

/-- `handleRunQuery` of part_008 (lines 62-131) as a state transition: given
the component state and the outcome of the (single) fetch, return the final
state and the list of requests issued.  Blank input returns early with the
validation message and no request; otherwise the error text is cleared, the
suggestion count is clamped and written back, the request is issued, and the
response is normalized into `output` or turned into an error message. -/
def handleRunQuery (s : DashState) (resp : RunResponse) : DashState × List RunRequest :=
  if jsTrim s.input = "" then
    ({ s with error := "Please enter a query or description" }, [])
  else
    let finalSuggestions := getValidatedSuggestions s.numSuggestionsInput
    let s1 := { s with error := "", output := none,
                       numSuggestionsInput := toString finalSuggestions,
                       numSuggestionsWasValidated := true,
                       isLoading := false }
    let req : RunRequest :=
      { endpoint := endpointFor s.operation,
        payload := mkPayload s.operation s.input s.databaseType finalSuggestions }
    match resp with
    | .ok data => ({ s1 with output := some (normalizeOutput s.operation data) }, [req])
    | .httpError detail message =>
        ({ s1 with error := runCatch (runErrMsg detail message) }, [req])
    | .thrown m => ({ s1 with error := runCatch m }, [req])

/-- The `op` URL-parameter effect (part_008 lines 42-50, identical in
Dashboard.tsx lines 18-27): when the parameter is present and truthy, set the
operation and clear input, output and error. -/
def opParamEffect (opParam : Option String) (s : DashState) : DashState :=
  match opParam with
  | none => s
  | some op =>
      if op = "" then s
      else { s with operation := op, input := "", output := none, error := "" }

/-! ## Dashboard variant (src/unnamed/part_009) -/

/-- The request payload of the part_009 dashboard (lines 55-61): no
`database_type` key, and `question` / `sql` / `max_suggestions` set to
`undefined` (dropped by `JSON.stringify`) outside their operation. -/
structure RunPayload9 where
  question : Option String
  sql : Option String
  db_key : String
  max_rows : Int
  max_suggestions : Option Int
deriving DecidableEq, Repr

/-- The suggestion-count `onChange` handler of part_009 (line 125):
`parseInt(e.target.value) || 5` (NaN and 0 are falsy). -/
def numSuggestionsOnChange9 (s : String) : Int :=
  match jsParseInt s with
  | none => 5
  | some n => if n = 0 then 5 else n

/-- Payload construction of part_009 `handleRunQuery`. -/
def mkPayload9 (operation input : String) (numSuggestions : Int) : RunPayload9 :=
  { question := if operation = "generate" then some input else none,
    sql := if operation = "generate" then none else some input,
    db_key := "default",
    max_rows := 100,
    max_suggestions := if operation = "suggest" then some numSuggestions else none }

/-! ## AuthContext.tsx: auth-context construction -/

/-- The `User` interface of AuthContext.tsx: `{ email, name? }`. -/
structure Identity where
  email : String
  name : Option String
deriving DecidableEq, Repr

/-- The `useState` initializer of `AuthProvider` (AuthContext.tsx lines
20-23): `const saved = sessionStorage.getItem('auth_user');
return saved ? JSON.parse(saved) : null;`.  `stored` is the storage entry
(`none` when absent); `parse` models the host `JSON.parse` followed by use
as a `User`, returning `Except.error` when the stored text is not valid
JSON.  The initializer has no `try`/`catch`, so a parse error propagates
out of construction (modelled by `Except.error` in the result); a falsy
entry (absent or the empty string) yields `none` (no identity). -/
def authInitUser (parse : String → Except String Identity) (stored : Option String) :
    Except String (Option Identity) :=
  match stored with
  | none => Except.ok none
  | some saved =>
      if saved = "" then Except.ok none
      else (parse saved).map some

/-! ## OnboardingPage (src/unnamed/part_006) -/

/-- Browser localStorage, per-origin: a key-value map. -/
def Store : Type := String → Option String

/-- A storage scope with no entries. -/
def emptyStore : Store := fun _ => none

/-- `localStorage.setItem(k, v)`. -/
def setItem (store : Store) (k v : String) : Store :=
  fun k2 => if k2 = k then some v else store k2

/-- Component state of the onboarding page (part_006). -/
structure OnbState where
  userEmail : String
  database : String
  schema : String
  isLoading : Bool
  onboardingCompleted : Bool
deriving DecidableEq, Repr

/-- Per-user Workspace Settings as read back from storage. -/
structure Settings where
  databaseDialect : String
  lastSchemaText : String
  onboardingCompleted : Bool
deriving DecidableEq, Repr

/-- The storage reads of the onboarding page (part_006 lines 36-39 and
44-46): `localStorage.getItem('selected_db_' + email) || 'mysql'`,
`localStorage.getItem('last_schema_' + email) || ''`, and
`localStorage.getItem('onboarding_completed_' + email) === 'true'`. -/
def readSettings (email : String) (store : Store) : Settings :=
  { databaseDialect := jsOrS (store ("selected_db_" ++ email)) "mysql",
    lastSchemaText := jsOrS (store ("last_schema_" ++ email)) "",
    onboardingCompleted := store ("onboarding_completed_" ++ email) == some "true" }

/-- The `warning` field of a successful upload body: either a string or an
object carrying an optional `message` (part_006 line 134 branches on
`typeof data.warning === 'object'`). -/
inductive WarnVal where
  | str (s : String)
  | obj (message : Option String)
deriving DecidableEq, Repr

/-- The success body consumed by `handleComplete`: `{ warning?, message? }`. -/
structure UploadData where
  warning : Option WarnVal
  message : Option String
deriving DecidableEq, Repr

/-- A structured error `detail` object: `{ error?, message?, parse_errors?,
hint? }`. -/
structure UploadErrDetail where
  error : Option String
  message : Option String
  parse_errors : List String
  hint : Option String
deriving DecidableEq, Repr

/-- The `detail` field of a non-ok response body: a structured object, a
plain string, or absent (also the shape `{}` produced by the
`.catch(() => ({}))` fallback). -/
inductive UploadDetail where
  | obj (d : UploadErrDetail)
  | str (s : String)
  | absent
deriving DecidableEq, Repr

/-- Outcome of the `/upload-schema` fetch: a parsed success body, a non-ok
HTTP response with its `detail`, or a thrown exception. -/
inductive UploadResponse where
  | ok (data : UploadData)
  | httpError (detail : UploadDetail)
  | thrown (msg : String)
deriving DecidableEq, Repr

/-- A notification emitted through the `sonner` toast API. -/
inductive Toast where
  | error (title : String) (description : Option String)
  | success (msg : String)
  | warning (title : String) (description : Option String)
deriving DecidableEq, Repr

/-- The `/upload-schema` request body: `{ db_key, schema_sql, database_type }`. -/
structure UploadRequest where
  db_key : String
  schema_sql : String
  database_type : String
deriving DecidableEq, Repr

/-- Result of one onboarding action: final component state, final storage,
toasts shown, navigation target (if any), requests issued. -/
structure OnbResult where
  state : OnbState
  store : Store
  toasts : List Toast
  nav : Option String
  requests : List UploadRequest

/-- Truthiness of `data.warning` (`if (data.warning)`): absent and the empty
string are falsy, an object is truthy. -/
def warnTruthy : Option WarnVal → Bool
  | none => false
  | some (.str s) => !(s = "")
  | some (.obj _) => true

/-- `typeof data.warning === 'object' ? data.warning.message : data.message`
(part_006 line 134). -/
def warnMsg (data : UploadData) : Option String :=
  match data.warning with
  | some (.obj m) => m
  | some (.str _) => data.message
  | none => data.message

/-- `handleComplete` of part_006 (lines 73-160) as a state transition.
Blank schema returns early with a toast and no request.  Otherwise the
upload request is issued; a structured `schema_dialect_mismatch` or
`schema_parse_failed` detail shows its dedicated toast and returns with
storage untouched; every other failure lands in the catch clause as an
`Upload Failed` toast; success shows a success (or warning) toast, writes
the three per-email keys, marks onboarding completed, and navigates to the
dashboard when the flag was not already set. -/
def handleComplete (st : OnbState) (store : Store) (resp : UploadResponse) : OnbResult :=
  if jsTrim st.schema = "" then
    { state := st, store := store,
      toasts := [Toast.error "Please provide a schema or skip for now" none],
      nav := none, requests := [] }
  else
    let req : UploadRequest :=
      { db_key := "default", schema_sql := st.schema, database_type := st.database }
    match resp with
    | .httpError detail =>
        match detail with
        | .obj d =>
            if d.error = some "schema_dialect_mismatch" then
              { state := { st with isLoading := false }, store := store,
                toasts := [Toast.error "Schema Dialect Mismatch" d.message],
                nav := none, requests := [req] }
            else if d.error = some "schema_parse_failed" then
              { state := { st with isLoading := false }, store := store,
                toasts := [Toast.error (d.message.getD "")
                  (match d.parse_errors with
                   | e :: _ => some ("Error: " ++ e)
                   | [] => d.hint)],
                nav := none, requests := [req] }
            else
              -- `throw new Error(detail.message)` when truthy, else
              -- `throw new Error(detail?.message || detail || ...)` where the
              -- object `detail` stringifies; caught by the catch clause.
              { state := { st with isLoading := false }, store := store,
                toasts := [Toast.error "Upload Failed"
                  (some (jsOrS (some (jsOrS d.message "[object Object]"))
                    "An unexpected error occurred uploading the schema."))],
                nav := none, requests := [req] }
        | .str s2 =>
            { state := { st with isLoading := false }, store := store,
              toasts := [Toast.error "Upload Failed"
                (some (jsOrS (some (jsOrS (some s2) "Failed to upload schema"))
                  "An unexpected error occurred uploading the schema."))],
              nav := none, requests := [req] }
        | .absent =>
            { state := { st with isLoading := false }, store := store,
              toasts := [Toast.error "Upload Failed"
                (some (jsOrS (some "Failed to upload schema")
                  "An unexpected error occurred uploading the schema."))],
              nav := none, requests := [req] }
    | .thrown m =>
        { state := { st with isLoading := false }, store := store,
          toasts := [Toast.error "Upload Failed"
            (some (jsOrS (some m) "An unexpected error occurred uploading the schema."))],
          nav := none, requests := [req] }
    | .ok data =>
        let store3 :=
          setItem (setItem (setItem store
            ("onboarding_completed_" ++ st.userEmail) "true")
            ("selected_db_" ++ st.userEmail) st.database)
            ("last_schema_" ++ st.userEmail) st.schema
        let toasts :=
          if warnTruthy data.warning then
            [Toast.warning "Schema Uploaded with Warning"
              (some (jsOrS (warnMsg data) "Dialect detection uncertain."))]
          else
            [Toast.success (if st.onboardingCompleted then "Schema updated successfully!"
                            else "Onboarding completed!")]
        { state := { st with onboardingCompleted := true, isLoading := false },
          store := store3, toasts := toasts,
          nav := if st.onboardingCompleted then none else some "/dashboard",
          requests := [req] }

/-- `handleSkip` of part_006 (lines 162-166): write the completed flag and
the selected dialect under the active email and navigate to the dashboard;
the schema text is not written. -/
def handleSkip (st : OnbState) (store : Store) : Store × Option String :=
  (setItem (setItem store ("onboarding_completed_" ++ st.userEmail) "true")
    ("selected_db_" ++ st.userEmail) st.database,
   some "/dashboard")

/-! ## Helper lemmas -/

theorem jsOrS_empty_default (x : Option String) : jsOrS x "" = x.getD "" := by
  cases x with
  | none => rfl
  | some s =>
      by_cases h : s = "" <;> simp [jsOrS, h]

theorem str_append_cancel (p a b : String) (h : p ++ a = p ++ b) : a = b := by
  have hd := congrArg String.data h
  rw [String.data_append, String.data_append] at hd
  exact String.ext (List.append_cancel_left hd)

theorem str_append_ne_of_head_ne (p q a b : String) (c d : Char)
    (hp : p.data.head? = some c) (hq : q.data.head? = some d) (hcd : c ≠ d) :
    p ++ a ≠ q ++ b := by
  intro h
  have hd := congrArg String.data h
  rw [String.data_append, String.data_append] at hd
  cases hpd : p.data with
  | nil => rw [hpd] at hp; exact Option.noConfusion hp
  | cons x xs =>
      cases hqd : q.data with
      | nil => rw [hqd] at hq; exact Option.noConfusion hq
      | cons y ys =>
          rw [hpd] at hp
          rw [hqd] at hq
          simp only [List.head?] at hp hq
          rw [hpd, hqd] at hd
          simp only [List.cons_append, List.cons.injEq] at hd
          have hx : x = c := Option.some.inj hp
          have hy : y = d := Option.some.inj hq
          apply hcd
          rw [← hx, ← hy]
          exact hd.1

/-- The three per-email key families used by the onboarding page. -/
def settingKeyHeads : List String :=
  ["selected_db_", "last_schema_", "onboarding_completed_"]

theorem settingKey_inj {p q : String} (hp : p ∈ settingKeyHeads) (hq : q ∈ settingKeyHeads)
    {a b : String} (h : p ++ a = q ++ b) : p = q ∧ a = b := by
  simp only [settingKeyHeads, List.mem_cons, List.mem_singleton, List.not_mem_nil,
    or_false] at hp hq
  rcases hp with rfl | rfl | rfl <;> rcases hq with rfl | rfl | rfl
  all_goals first
    | exact ⟨rfl, str_append_cancel _ _ _ h⟩
    | exact absurd h (str_append_ne_of_head_ne _ _ _ _ _ _ rfl rfl (by decide))

theorem setItem_other (store : Store) (k v k2 : String) (h : k2 ≠ k) :
    setItem store k v k2 = store k2 := if_neg h

theorem handleComplete_store_frame (st : OnbState) (store : Store) (resp : UploadResponse)
    (k : String) (hk : ∀ p ∈ settingKeyHeads, k ≠ p ++ st.userEmail) :
    (handleComplete st store resp).store k = store k := by
  by_cases hb : jsTrim st.schema = ""
  · unfold handleComplete
    rw [if_pos hb]
  · cases resp with
    | ok data =>
        unfold handleComplete
        rw [if_neg hb]
        show setItem (setItem (setItem store
          ("onboarding_completed_" ++ st.userEmail) "true")
          ("selected_db_" ++ st.userEmail) st.database)
          ("last_schema_" ++ st.userEmail) st.schema k = store k
        rw [setItem_other _ _ _ _ (hk "last_schema_" (by simp [settingKeyHeads])),
            setItem_other _ _ _ _ (hk "selected_db_" (by simp [settingKeyHeads])),
            setItem_other _ _ _ _ (hk "onboarding_completed_" (by simp [settingKeyHeads]))]
    | httpError detail =>
        cases detail with
        | obj d =>
            unfold handleComplete
            rw [if_neg hb]
            dsimp only
            by_cases h1 : d.error = some "schema_dialect_mismatch"
            · rw [if_pos h1]
            · rw [if_neg h1]
              by_cases h2 : d.error = some "schema_parse_failed"
              · rw [if_pos h2]
              · rw [if_neg h2]
        | str s2 =>
            unfold handleComplete
            rw [if_neg hb]
        | absent =>
            unfold handleComplete
            rw [if_neg hb]
    | thrown m =>
        unfold handleComplete
        rw [if_neg hb]

theorem handleSkip_store_frame (st : OnbState) (store : Store)
    (k : String) (hk : ∀ p ∈ settingKeyHeads, k ≠ p ++ st.userEmail) :
    (handleSkip st store).1 k = store k := by
  show setItem (setItem store ("onboarding_completed_" ++ st.userEmail) "true")
    ("selected_db_" ++ st.userEmail) st.database k = store k
  rw [setItem_other _ _ _ _ (hk "selected_db_" (by simp [settingKeyHeads])),
      setItem_other _ _ _ _ (hk "onboarding_completed_" (by simp [settingKeyHeads]))]

/-- `getValidatedSuggestions` always lands in the inclusive range [1, 10]
(the part_008 clamp is total). -/
theorem getValidatedSuggestions_range (s : String) :
    1 ≤ getValidatedSuggestions s ∧ getValidatedSuggestions s ≤ 10 := by
  unfold getValidatedSuggestions
  cases jsParseInt s with
  | none => exact ⟨by norm_num, by norm_num⟩
  | some n =>
      by_cases h : s = ""
      · simp only [h, if_true]
        exact ⟨by norm_num, by norm_num⟩
      · simp only [h, if_false]
        exact ⟨le_max_left _ _, max_le (by norm_num) (min_le_left _ _)⟩

/-! ## Claim theorems -/

/-- C1: evaluation of the part_009 dashboard at the failing input.  Typing
"15" into the suggestion-count field stores `parseInt('15') || 5 = 15`
unclamped, and a run with operation `suggest` then puts
`max_suggestions = 15` into the payload, outside the inclusive range
[1, 10] that the claim requires for every run. -/
theorem c1_part009_sends_unclamped :
    numSuggestionsOnChange9 "15" = 15
    ∧ (mkPayload9 "suggest" "show recent orders"
        (numSuggestionsOnChange9 "15")).max_suggestions = some 15
    ∧ ¬ ((15 : Int) ≤ 10) := by decide

/-- C2: the suggestion-count clamp of part_008 returns 5 when the string
does not parse as an integer (in particular when it is empty), and
otherwise `max 1 (min 10 (parseInt s))`; with the four concrete examples
from the spec. -/
theorem c2_clamp_spec :
    (∀ s : String, jsParseInt s = none → getValidatedSuggestions s = 5)
    ∧ (∀ (s : String) (n : Int), jsParseInt s = some n →
        getValidatedSuggestions s = max 1 (min 10 n))
    ∧ getValidatedSuggestions "" = 5
    ∧ getValidatedSuggestions "0" = 1
    ∧ getValidatedSuggestions "15" = 10
    ∧ getValidatedSuggestions "7" = 7 := by
  refine ⟨?_, ?_, by decide, by decide, by decide, by decide⟩
  · intro s h
    unfold getValidatedSuggestions
    rw [h]
  · intro s n h
    have hs : s ≠ "" := by
      intro he
      subst he
      rw [show jsParseInt "" = none from rfl] at h
      exact Option.noConfusion h
    unfold getValidatedSuggestions
    rw [h]
    simp [hs]

/-- Witness for C2 at concrete inputs. -/
theorem c2_clamp_spec_witness :
    jsParseInt "15" = some 15
    ∧ getValidatedSuggestions "15" = max 1 (min 10 15)
    ∧ jsParseInt "zzz" = none
    ∧ getValidatedSuggestions "zzz" = 5 :=
  ⟨by decide, c2_clamp_spec.2.1 "15" 15 (by decide), by decide,
   c2_clamp_spec.1 "zzz" (by decide)⟩

/-- C3: a run with blank or whitespace-only input issues no request, leaves
the previous output (and everything but the error text) unchanged, and sets
the error to exactly "Please enter a query or description". -/
theorem c3_blank_input_no_request : ∀ (s : DashState) (resp : RunResponse),
    jsTrim s.input = "" →
    handleRunQuery s resp = ({ s with error := "Please enter a query or description" }, [])
    ∧ (handleRunQuery s resp).1.output = s.output
    ∧ (handleRunQuery s resp).2 = [] := by
  intro s resp h
  have he : handleRunQuery s resp =
      ({ s with error := "Please enter a query or description" }, []) := by
    unfold handleRunQuery
    rw [if_pos h]
  exact ⟨he, by rw [he], by rw [he]⟩

/-- Witness for C3 at a whitespace-only input while a previous result is
displayed. -/
theorem c3_blank_input_no_request_witness :
    handleRunQuery
      { operation := "generate", input := " \t ", isLoading := false,
        output := some { sql := some "SELECT 1", explanation := some "ok",
                         suggestions := none },
        error := "", numSuggestionsInput := "5",
        numSuggestionsWasValidated := false, databaseType := "mysql" }
      (.thrown "network down")
    = ({ operation := "generate", input := " \t ", isLoading := false,
         output := some { sql := some "SELECT 1", explanation := some "ok",
                          suggestions := none },
         error := "Please enter a query or description", numSuggestionsInput := "5",
         numSuggestionsWasValidated := false, databaseType := "mysql" }, []) :=
  (c3_blank_input_no_request _ _ (by decide)).1

/-- C4 counterexample: the claim's second half fails.  For the unknown
operation code "frobnicate" the endpoint does default to `generate`'s, but
the payload carries the input in the `sql` field while `generate` carries
it in `question`, so the payload shape is not the same as `generate`'s. -/
theorem c4_unknown_op_payload_cex :
    endpointFor "frobnicate" = endpointFor "generate"
    ∧ (mkPayload "generate" "x" "mysql" 5).question = some "x"
    ∧ (mkPayload "generate" "x" "mysql" 5).sql = none
    ∧ (mkPayload "frobnicate" "x" "mysql" 5).question = none
    ∧ (mkPayload "frobnicate" "x" "mysql" 5).sql = some "x" := by decide

/-- C4 (amended): every known operation code has a non-empty label and
description in the selector table and a well-defined endpoint and payload
shape; an unknown code gets `generate`'s endpoint, but its payload carries
the input in `sql` (like the non-generate operations), not in `question`. -/
theorem c4_workflow_mapping :
    (∀ op ∈ opCodes, ∃ info ∈ operations,
        info.value = op ∧ info.label ≠ "" ∧ info.description ≠ "")
    ∧ (∀ op ∈ opCodes, ∀ (inp dbt : String) (n : Int),
        (mkPayload op inp dbt n).question = (if op = "generate" then some inp else none)
        ∧ (mkPayload op inp dbt n).sql = (if op = "generate" then none else some inp)
        ∧ (mkPayload op inp dbt n).max_suggestions =
            (if op = "suggest" then some n else none))
    ∧ (∀ op : String, op ∉ opCodes →
        endpointFor op = "/api/generate-sql"
        ∧ ∀ (inp dbt : String) (n : Int),
            mkPayload op inp dbt n =
              { db_key := "default", max_rows := 100, database_type := dbt,
                question := none, sql := some inp, max_suggestions := none }) := by
  refine ⟨by decide, ?_, ?_⟩
  · intro op hop inp dbt n
    fin_cases hop <;> simp [mkPayload]
  · intro op hop
    simp only [opCodes, List.mem_cons, List.not_mem_nil, or_false, not_or] at hop
    obtain ⟨h1, h2, h3, h4, h5, h6⟩ := hop
    refine ⟨?_, ?_⟩
    · simp [endpointFor, h2, h3, h4, h5]
    · intro inp dbt n
      simp [mkPayload, h1, h5]

/-- Witness for C4 (amended) at a known and an unknown operation code. -/
theorem c4_workflow_mapping_witness :
    endpointFor "totally-unknown" = "/api/generate-sql"
    ∧ mkPayload "totally-unknown" "q" "mysql" 3 =
        { db_key := "default", max_rows := 100, database_type := "mysql",
          question := none, sql := some "q", max_suggestions := none }
    ∧ (mkPayload "suggest" "q" "mysql" 3).max_suggestions = some 3 := by
  have h := c4_workflow_mapping
  refine ⟨(h.2.2 "totally-unknown" (by decide)).1,
          (h.2.2 "totally-unknown" (by decide)).2 "q" "mysql" 3, ?_⟩
  have h3 := (h.2.1 "suggest" (by decide) "q" "mysql" 3).2.2
  simpa using h3

/-- C5: a change of the `op` URL parameter (a non-empty operation string)
sets the operation and clears input, output and error regardless of the
prior state, and the reset is idempotent. -/
theorem c5_op_change_resets : ∀ (op : String) (s : DashState), op ≠ "" →
    (opParamEffect (some op) s).operation = op
    ∧ (opParamEffect (some op) s).input = ""
    ∧ (opParamEffect (some op) s).output = none
    ∧ (opParamEffect (some op) s).error = ""
    ∧ opParamEffect (some op) (opParamEffect (some op) s) = opParamEffect (some op) s := by
  intro op s h
  simp [opParamEffect, h]

/-- Witness for C5 while an error and a result are displayed. -/
theorem c5_op_change_resets_witness :
    (opParamEffect (some "fix")
      { operation := "generate", input := "old text", isLoading := false,
        output := some { sql := some "SELECT 2", explanation := none, suggestions := none },
        error := "old error", numSuggestionsInput := "5",
        numSuggestionsWasValidated := true, databaseType := "mysql" }).input = ""
    ∧ (opParamEffect (some "fix")
      { operation := "generate", input := "old text", isLoading := false,
        output := some { sql := some "SELECT 2", explanation := none, suggestions := none },
        error := "old error", numSuggestionsInput := "5",
        numSuggestionsWasValidated := true, databaseType := "mysql" }).output = none := by
  have h := c5_op_change_resets "fix"
    { operation := "generate", input := "old text", isLoading := false,
      output := some { sql := some "SELECT 2", explanation := none, suggestions := none },
      error := "old error", numSuggestionsInput := "5",
      numSuggestionsWasValidated := true, databaseType := "mysql" } (by decide)
  exact ⟨h.2.1, h.2.2.1⟩

/-- C7: normalization of a successful run.  For `suggest` the result's
`suggestions` and `explanation` fields are the response's `queries` and
`notes` with absent fields defaulted to the empty list and empty string;
for every other operation the result's `sql` and `explanation` are the
response's fields defaulted to empty strings; and this normalized result is
what lands in the dashboard's `output`. -/
theorem c7_normalized_output : ∀ (op : String) (data : RunData),
    (op = "suggest" →
      normalizeOutput op data =
        { sql := none, explanation := some (data.notes.getD ""),
          suggestions := some (data.queries.getD []) })
    ∧ (op ≠ "suggest" →
      normalizeOutput op data =
        { sql := some (data.sql.getD ""), explanation := some (data.explanation.getD ""),
          suggestions := none })
    ∧ (∀ s : DashState, jsTrim s.input ≠ "" →
        (handleRunQuery s (.ok data)).1.output = some (normalizeOutput s.operation data)) := by
  intro op data
  refine ⟨?_, ?_, ?_⟩
  · intro h
    simp [normalizeOutput, h, jsOrS_empty_default]
  · intro h
    simp [normalizeOutput, h, jsOrS_empty_default]
  · intro s h
    unfold handleRunQuery
    rw [if_neg h]

/-- Witness for C7 on a response with every field absent. -/
theorem c7_normalized_output_witness :
    normalizeOutput "suggest" { sql := none, explanation := none, queries := none, notes := none }
      = { sql := none, explanation := some "", suggestions := some [] }
    ∧ normalizeOutput "generate" { sql := none, explanation := none, queries := none, notes := none }
      = { sql := some "", explanation := some "", suggestions := none } :=
  ⟨(c7_normalized_output "suggest" _).1 rfl,
   (c7_normalized_output "generate" _).2.1 (by decide)⟩

/-- C6: the auth-context construction (AuthContext.tsx lines 20-23) has no
`try`/`catch` around `JSON.parse`, so a malformed persisted entry makes the
initializer propagate the parse error (construction throws) instead of
yielding the unauthenticated no-identity state; an absent entry does yield
no identity. -/
theorem c6_parse_failure_propagates :
    authInitUser (fun _ => Except.error "SyntaxError: Unexpected token") (some "not-json")
      = Except.error "SyntaxError: Unexpected token"
    ∧ authInitUser (fun _ => Except.error "SyntaxError: Unexpected token") (some "not-json")
      ≠ Except.ok none
    ∧ authInitUser (fun _ => Except.error "SyntaxError: Unexpected token") none
      = Except.ok none :=
  ⟨rfl, fun h => Except.noConfusion h, rfl⟩

/-- C8: when the schema upload fails with a structured
`schema_dialect_mismatch` detail, the onboarding page shows the
dialect-mismatch toast carrying the detail's message, writes nothing to
persistent storage (in particular the completed flag is not set), does not
navigate, and leaves the schema text (and the rest of the state, apart from
the loading flag) unchanged. -/
theorem c8_dialect_mismatch : ∀ (st : OnbState) (store : Store) (d : UploadErrDetail),
    jsTrim st.schema ≠ "" → d.error = some "schema_dialect_mismatch" →
    handleComplete st store (.httpError (.obj d)) =
      { state := { st with isLoading := false }, store := store,
        toasts := [Toast.error "Schema Dialect Mismatch" d.message],
        nav := none,
        requests := [{ db_key := "default", schema_sql := st.schema,
                       database_type := st.database }] } := by
  intro st store d hs he
  unfold handleComplete
  rw [if_neg hs]
  dsimp only
  rw [if_pos he]

/-- Witness for C8 at a concrete in-progress schema and mismatch message. -/
theorem c8_dialect_mismatch_witness :
    handleComplete
      { userEmail := "a@x.com", database := "mysql", schema := "CREATE TABLE t",
        isLoading := true, onboardingCompleted := false }
      emptyStore
      (.httpError (.obj { error := some "schema_dialect_mismatch",
                          message := some "Schema looks like PostgreSQL",
                          parse_errors := [], hint := none })) =
      { state := { userEmail := "a@x.com", database := "mysql",
                   schema := "CREATE TABLE t", isLoading := false,
                   onboardingCompleted := false },
        store := emptyStore,
        toasts := [Toast.error "Schema Dialect Mismatch"
                    (some "Schema looks like PostgreSQL")],
        nav := none,
        requests := [{ db_key := "default", schema_sql := "CREATE TABLE t",
                       database_type := "mysql" }] } :=
  c8_dialect_mismatch _ _ _ (by decide) rfl

/-- C9: Workspace Settings are isolated per identity email.  Any storage
mutation performed by the onboarding page under one email (a completed
upload, whatever the response; or a skip) leaves every read under a
different email unchanged, and a read under an email with no prior writes
yields the defaults (dialect mysql, empty schema, onboarding not
completed). -/
theorem c9_settings_isolated :
    ∀ (st : OnbState) (store : Store) (resp : UploadResponse) (b : String),
    b ≠ st.userEmail →
    readSettings b (handleComplete st store resp).store = readSettings b store
    ∧ readSettings b (handleSkip st store).1 = readSettings b store
    ∧ ∀ e : String, readSettings e emptyStore =
        { databaseDialect := "mysql", lastSchemaText := "", onboardingCompleted := false } := by
  intro st store resp b hb
  have key_ne : ∀ q ∈ settingKeyHeads, ∀ p ∈ settingKeyHeads,
      q ++ b ≠ p ++ st.userEmail := by
    intro q hq p hp h
    obtain ⟨hpq, hab⟩ := settingKey_inj hq hp h
    exact hb hab
  refine ⟨?_, ?_, fun e => rfl⟩
  · unfold readSettings
    rw [handleComplete_store_frame st store resp _
          (key_ne "selected_db_" (by simp [settingKeyHeads])),
        handleComplete_store_frame st store resp _
          (key_ne "last_schema_" (by simp [settingKeyHeads])),
        handleComplete_store_frame st store resp _
          (key_ne "onboarding_completed_" (by simp [settingKeyHeads]))]
  · unfold readSettings
    rw [handleSkip_store_frame st store _
          (key_ne "selected_db_" (by simp [settingKeyHeads])),
        handleSkip_store_frame st store _
          (key_ne "last_schema_" (by simp [settingKeyHeads])),
        handleSkip_store_frame st store _
          (key_ne "onboarding_completed_" (by simp [settingKeyHeads]))]

/-- Witness for C9: a completed upload and a skip under one email leave the
other email's reads at the defaults. -/
theorem c9_settings_isolated_witness :
    readSettings "b@y.com"
      (handleComplete
        { userEmail := "a@x.com", database := "postgresql",
          schema := "CREATE TABLE t", isLoading := false,
          onboardingCompleted := false }
        emptyStore
        (.ok { warning := none, message := none })).store
      = readSettings "b@y.com" emptyStore
    ∧ readSettings "b@y.com"
        (handleSkip
          { userEmail := "a@x.com", database := "postgresql",
            schema := "CREATE TABLE t", isLoading := false,
            onboardingCompleted := false }
          emptyStore).1
      = readSettings "b@y.com" emptyStore
    ∧ readSettings "b@y.com" emptyStore =
        { databaseDialect := "mysql", lastSchemaText := "", onboardingCompleted := false } := by
  have h := c9_settings_isolated
    { userEmail := "a@x.com", database := "postgresql",
      schema := "CREATE TABLE t", isLoading := false,
      onboardingCompleted := false }
    emptyStore (.ok { warning := none, message := none }) "b@y.com" (by decide)
  exact ⟨h.1, h.2.1, h.2.2 "b@y.com"⟩

/-- C10: the Skip action persists the completed flag and the selected
dialect under the active email, touches no other key (in particular the
typed schema text is not written), so a later read of the schema key finds
the empty-string default when nothing was stored before; and it navigates
to the dashboard. -/
theorem c10_skip_writes : ∀ (st : OnbState) (store : Store),
    (handleSkip st store).1 ("onboarding_completed_" ++ st.userEmail) = some "true"
    ∧ (handleSkip st store).1 ("selected_db_" ++ st.userEmail) = some st.database
    ∧ (∀ k : String, k ≠ "onboarding_completed_" ++ st.userEmail →
        k ≠ "selected_db_" ++ st.userEmail → (handleSkip st store).1 k = store k)
    ∧ (store ("last_schema_" ++ st.userEmail) = none →
        (readSettings st.userEmail (handleSkip st store).1).lastSchemaText = "")
    ∧ (handleSkip st store).2 = some "/dashboard" := by
  intro st store
  have h_os : ("onboarding_completed_" ++ st.userEmail) ≠
      ("selected_db_" ++ st.userEmail) :=
    str_append_ne_of_head_ne _ _ _ _ 'o' 's' rfl rfl (by decide)
  have h_lo : ("last_schema_" ++ st.userEmail) ≠
      ("onboarding_completed_" ++ st.userEmail) :=
    str_append_ne_of_head_ne _ _ _ _ 'l' 'o' rfl rfl (by decide)
  have h_ls : ("last_schema_" ++ st.userEmail) ≠
      ("selected_db_" ++ st.userEmail) :=
    str_append_ne_of_head_ne _ _ _ _ 'l' 's' rfl rfl (by decide)
  have hframe : ∀ k : String, k ≠ "onboarding_completed_" ++ st.userEmail →
      k ≠ "selected_db_" ++ st.userEmail → (handleSkip st store).1 k = store k := by
    intro k h1 h2
    show setItem (setItem store ("onboarding_completed_" ++ st.userEmail) "true")
      ("selected_db_" ++ st.userEmail) st.database k = store k
    rw [setItem_other _ _ _ _ h2, setItem_other _ _ _ _ h1]
  refine ⟨?_, ?_, hframe, ?_, rfl⟩
  · show setItem (setItem store ("onboarding_completed_" ++ st.userEmail) "true")
      ("selected_db_" ++ st.userEmail) st.database
      ("onboarding_completed_" ++ st.userEmail) = some "true"
    rw [setItem_other _ _ _ _ h_os]
    exact if_pos rfl
  · exact if_pos rfl
  · intro hnone
    show jsOrS ((handleSkip st store).1 ("last_schema_" ++ st.userEmail)) "" = ""
    rw [hframe _ h_lo h_ls, hnone]
    rfl

/-- Witness for C10: skipping with a typed schema leaves the schema key
absent while flag and dialect are stored. -/
theorem c10_skip_writes_witness :
    (handleSkip
      { userEmail := "a@x.com", database := "sqlite",
        schema := "CREATE TABLE t", isLoading := false,
        onboardingCompleted := false } emptyStore).1 "onboarding_completed_a@x.com"
      = some "true"
    ∧ (handleSkip
        { userEmail := "a@x.com", database := "sqlite",
          schema := "CREATE TABLE t", isLoading := false,
          onboardingCompleted := false } emptyStore).1 "selected_db_a@x.com"
      = some "sqlite"
    ∧ (handleSkip
        { userEmail := "a@x.com", database := "sqlite",
          schema := "CREATE TABLE t", isLoading := false,
          onboardingCompleted := false } emptyStore).1 "last_schema_a@x.com"
      = none
    ∧ (readSettings "a@x.com"
        (handleSkip
          { userEmail := "a@x.com", database := "sqlite",
            schema := "CREATE TABLE t", isLoading := false,
            onboardingCompleted := false } emptyStore).1).lastSchemaText = "" := by
  have h := c10_skip_writes
    { userEmail := "a@x.com", database := "sqlite",
      schema := "CREATE TABLE t", isLoading := false,
      onboardingCompleted := false } emptyStore
  exact ⟨h.1, h.2.1,
    (h.2.2.1 "last_schema_a@x.com" (by decide) (by decide)).trans rfl,
    h.2.2.2.1 rfl⟩

end Talk2SQL
